import Mathlib

/-!
Verification of the job-thread lifecycle engine of `slack-thread-mcp`.

The development shallowly embeds the ledger (`ThreadStore`, appended to
`src/src/cli.ts`), the conversation-client call surface
(`src/src/lib/slack-client.ts`), the MCP tool operations
(`src/src/tools/slack-thread.ts`) and the CLI command operations
(`src/src/cli.ts`, `main` / `ensureThread`).  Stateful code is embedded by
explicit state passing; each operation returns its structured output, the
resulting ledger (and watchdog-monitor table where the source touches it),
and the ordered list of externally visible events it performed (Slack API
calls and persisted ledger writes, in program order).  Slack API responses
are supplied as explicit oracle arguments.  JavaScript string truthiness
(`""` is falsy) is made explicit through `jsOr`; optional string-valued CLI
options are encoded as `String` with `""` for "absent", exactly the
distinction the source observes.
-/

namespace SlackThread

/-- Job lifecycle status, from `JobStatus` in the ThreadStore source. -/
inductive JobStatus where
  | started
  | in_progress
  | completed
  | failed
deriving DecidableEq, Repr

/-- Message level of a progress reply, from the ThreadStore / client sources. -/
inductive Level where
  | info
  | warn
  | debug
deriving DecidableEq, Repr

/-- Metadata record attached to a parent message (TS `Record<string, unknown>`). -/
abbrev MetaData := List (String × String)

/-- Persisted per-job state, from `ThreadState` in the ThreadStore source.
Timestamps (`createdAt`, `updatedAt`, ISO strings produced from the clock in
the source) are modelled as the explicit `Nat` clock value passed to each
mutating operation.  The field `progressMessageTs` is Modelled from the spec:
the ThreadStore revision defining the coalescable progress-message handle
(`progressMessageHandle`, spec data model) is not under src, while cli.ts
calls its accessors; the spec describes it as the handle of the most recent
coalescable reply, absent until a reply is posted. -/
structure ThreadState where
  jobId : String
  channel : String
  threadTs : String
  title : String
  status : JobStatus
  createdAt : Nat
  updatedAt : Nat
  permalink : Option String
  progressMessageTs : Option String
deriving DecidableEq, Repr

/-- The ledger: a jobId-keyed insertion-ordered map (TS `Map<string, ThreadState>`),
modelled as the list of its values (every stored value carries its key as
`.jobId`, which is how all source call sites key the map). -/
structure ThreadStore where
  threads : List ThreadState
deriving DecidableEq, Repr

/-- JavaScript `a || b` on strings: the empty string is falsy. -/
def jsOr (a b : String) : String :=
  if a = "" then b else a

/-- `Map.get` (ThreadStore.get): lookup by exact jobId match, no side effects. -/
def ThreadStore.get (store : ThreadStore) (jobId : String) : Option ThreadState :=
  store.threads.find? (fun t => t.jobId == jobId)

/-- `Map.set` keyed by `s.jobId`: replace the existing entry in place if the
key is present, append otherwise (JS `Map.set` keeps the original insertion
position on overwrite). -/
def ThreadStore.set (store : ThreadStore) (s : ThreadState) : ThreadStore :=
  ⟨if store.threads.any (fun t => t.jobId == s.jobId)
    then store.threads.map (fun t => if t.jobId == s.jobId then s else t)
    else store.threads ++ [s]⟩

/-- `ThreadStore.create`: status `started`, both timestamps set to now,
no progress-message handle. -/
def ThreadStore.create (store : ThreadStore) (jobId channel threadTs title : String)
    (permalink : Option String) (now : Nat) : ThreadState × ThreadStore :=
  let s : ThreadState :=
    { jobId := jobId, channel := channel, threadTs := threadTs, title := title,
      status := .started, createdAt := now, updatedAt := now,
      permalink := permalink, progressMessageTs := none }
  (s, store.set s)

/-- `ThreadStore.updateStatus`: returns false and leaves the store unchanged
when the job is absent; otherwise sets the status, bumps `updatedAt`, persists. -/
def ThreadStore.updateStatus (store : ThreadStore) (jobId : String)
    (status : JobStatus) (now : Nat) : Bool × ThreadStore :=
  match store.get jobId with
  | none => (false, store)
  | some s => (true, store.set { s with status := status, updatedAt := now })

/-- `ThreadStore.isTerminal`: true iff the stored status is completed or failed;
false when the job is absent. -/
def ThreadStore.isTerminal (store : ThreadStore) (jobId : String) : Bool :=
  match store.get jobId with
  | none => false
  | some s => s.status == .completed || s.status == .failed

/-- `ThreadStore.list`: snapshot of the stored states in insertion order. -/
def ThreadStore.list (store : ThreadStore) : List ThreadState :=
  store.threads

/-- `ThreadStore.saveToDisk`: the full set of states is serialized on every
mutation; the persisted payload is the array `Array.from(threads.values())`,
modelled at the data level (JSON serialization of these records is lossless). -/
def ThreadStore.saveToDisk (store : ThreadStore) : List ThreadState :=
  store.threads

/-- `ThreadStore.loadFromDisk`: each parsed record is inserted into a fresh
map keyed by its own `jobId`. -/
def ThreadStore.loadFromDisk (data : List ThreadState) : ThreadStore :=
  data.foldl (fun st s => st.set s) ⟨[]⟩

/-- Modelled from the spec: `updateThreadHandle(jobId, handle, permalink?)`,
used by `ensureThread` in cli.ts to promote a placeholder (empty-handle) job
into a real thread; the ThreadStore revision defining it is not under src.
Per the spec it stores the handle and permalink and persists. -/
def ThreadStore.updateThreadTs (store : ThreadStore) (jobId ts : String)
    (permalink : Option String) : ThreadStore :=
  match store.get jobId with
  | none => store
  | some s => store.set { s with threadTs := ts, permalink := permalink }

/-- Modelled from the spec: accessor for the coalescable progress-message
handle used by cli.ts; the ThreadStore revision defining it is not under src. -/
def ThreadStore.getProgressMessageTs (store : ThreadStore) (jobId : String) :
    Option String :=
  match store.get jobId with
  | none => none
  | some s => s.progressMessageTs

/-- Modelled from the spec: `updateProgressMessageHandle(jobId, handle)`;
the ThreadStore revision defining it is not under src.  The spec calls the
handle an ephemeral pointer, not part of job identity. -/
def ThreadStore.updateProgressMessageTs (store : ThreadStore) (jobId ts : String) :
    ThreadStore :=
  match store.get jobId with
  | none => store
  | some s => store.set { s with progressMessageTs := some ts }

/-- Modelled from the spec: `clearProgressMessageHandle(jobId)`; the
ThreadStore revision defining it is not under src. -/
def ThreadStore.clearProgressMessageTs (store : ThreadStore) (jobId : String) :
    ThreadStore :=
  match store.get jobId with
  | none => store
  | some s => store.set { s with progressMessageTs := none }

/-- Result of posting a top-level (parent) message, from `PostResult`. -/
structure PostResult where
  ok : Bool
  channel : String
  ts : String
  permalink : Option String
deriving DecidableEq, Repr

/-- Result of posting or editing a threaded reply, from `ReplyResult`. -/
structure ReplyResult where
  ok : Bool
  ts : Option String
deriving DecidableEq, Repr

/-- JavaScript truthiness of an optional message timestamp (`result.ts`):
absent and the empty string are both falsy. -/
def tsTruthy : Option String → Bool
  | some t => t != ""
  | none => false

/-- One call into the external conversation capability, one constructor per
SlackClient method (edit variants for the upsert paths). -/
inductive SlackCall where
  | parent (channel title : String) (meta : Option MetaData) (mention : Bool)
  | reply (channel threadTs message : String) (level : Level) (mention : Bool)
  | editReply (channel replyTs message : String) (level : Level) (mention : Bool)
  | waitingMsg (channel threadTs title reason : String) (mention : Bool)
  | editWaitingMsg (channel replyTs title reason : String) (mention : Bool)
  | completeMsg (channel threadTs title : String) (summary : Option String)
      (suggestions : Option (List String)) (mention : Bool)
  | failMsg (channel threadTs title errorSummary : String)
      (logsHint : Option String) (mention : Bool)
deriving DecidableEq, Repr

/-- Externally visible events of one operation, in program order: Slack API
calls and persisted ledger writes. -/
inductive Event where
  | slack (c : SlackCall)
  | storeCreate (jobId : String)
  | storeSetStatus (jobId : String) (status : JobStatus)
  | storeSetThreadTs (jobId ts : String)
  | storeSetProgressTs (jobId ts : String)
  | storeClearProgressTs (jobId : String)
deriving DecidableEq, Repr

/-- Project an event to the Slack call it performs, if any. -/
def Event.slackCall? : Event → Option SlackCall
  | .slack c => some c
  | _ => none

/-- The Slack calls of an event list, in order. -/
def slackCalls (evs : List Event) : List SlackCall :=
  evs.filterMap Event.slackCall?

/-- Whether a Slack call posts a new top-level (parent) message. -/
def SlackCall.isParent : SlackCall → Bool
  | .parent .. => true
  | _ => false

/-- Whether an event posts a new top-level (parent) message. -/
def Event.isParentPost : Event → Bool
  | .slack c => c.isParent
  | _ => false

/-- Whether an event writes the progress-message handle. -/
def Event.isProgressTsWrite : Event → Bool
  | .storeSetProgressTs .. => true
  | _ => false

/-- `SlackClient.postParentMessage`: posts a top-level message; the oracle
supplies the platform response. -/
def postParentMessage (channel title : String) (meta : Option MetaData)
    (mention : Bool) (res : PostResult) : PostResult × List Event :=
  (res, [.slack (.parent channel title meta mention)])

/-- `SlackClient.postThreadReply`: posts a threaded reply. -/
def postThreadReply (channel threadTs message : String) (level : Level)
    (mention : Bool) (res : ReplyResult) : ReplyResult × List Event :=
  (res, [.slack (.reply channel threadTs message level mention)])

/-- `SlackClient.postComplete`: posts the completion reply. -/
def postComplete (channel threadTs title : String) (summary : Option String)
    (suggestions : Option (List String)) (mention : Bool) (res : ReplyResult) :
    ReplyResult × List Event :=
  (res, [.slack (.completeMsg channel threadTs title summary suggestions mention)])

/-- `SlackClient.postFail`: posts the failure reply. -/
def postFail (channel threadTs title errorSummary : String)
    (logsHint : Option String) (mention : Bool) (res : ReplyResult) :
    ReplyResult × List Event :=
  (res, [.slack (.failMsg channel threadTs title errorSummary logsHint mention)])

/-- `SlackClient.postWaiting` as defined under src (used by the MCP waiting
tool): always posts a new waiting reply. -/
def postWaiting (channel threadTs title reason : String) (mention : Bool)
    (res : ReplyResult) : ReplyResult × List Event :=
  (res, [.slack (.waitingMsg channel threadTs title reason mention)])

/-- Modelled from the spec: `upsertReply(channel, handle, text, mention,
existingReplyHandle?)` — cli.ts calls `upsertThreadReply`, which is absent
from the slack-client.ts revision under src; per the spec it posts a new
reply when the existing handle is absent and edits that reply in place
otherwise. -/
def upsertThreadReply (channel threadTs message : String) (level : Level)
    (mention : Bool) (existingTs : Option String) (res : ReplyResult) :
    ReplyResult × List Event :=
  match existingTs with
  | some ts => (res, [.slack (.editReply channel ts message level mention)])
  | none => (res, [.slack (.reply channel threadTs message level mention)])

/-- Modelled from the spec: the upsert-capable waiting post called by cli.ts
with an existing coalescable handle (absent from the slack-client.ts revision
under src); per the spec a waiting message may overwrite the preceding
coalescable reply, and posts fresh when no handle exists. -/
def postWaitingUpsert (channel threadTs title reason : String) (mention : Bool)
    (existingTs : Option String) (res : ReplyResult) : ReplyResult × List Event :=
  match existingTs with
  | some ts => (res, [.slack (.editWaitingMsg channel ts title reason mention)])
  | none => (res, [.slack (.waitingMsg channel threadTs title reason mention)])

/-- One armed inactivity-watchdog timer, from `WaitingNotification` in
slack-client.ts; `channel` and `threadTs` are the values captured by the
timer callback closure in `startWaitingMonitor`. -/
structure WaitingNotification where
  jobId : String
  channel : String
  threadTs : String
  notified : Bool
deriving DecidableEq, Repr

/-- The `waitingNotifications` map of SlackClient (at most one entry per job). -/
abbrev Monitors := List WaitingNotification

/-- `SlackClient.cancelWaitingMonitor`: clears the timer and removes the entry. -/
def cancelWaitingMonitor (monitors : Monitors) (jobId : String) : Monitors :=
  monitors.filter (fun n => n.jobId != jobId)

/-- `SlackClient.startWaitingMonitor`: cancels any existing monitor for the
job, then arms a fresh un-notified one. -/
def startWaitingMonitor (monitors : Monitors) (jobId channel threadTs : String) :
    Monitors :=
  cancelWaitingMonitor monitors jobId ++ [⟨jobId, channel, threadTs, false⟩]

/-- Text of the stalled notification posted by the watchdog callback. -/
def stalledText : String :=
  "⏸️ 処理が一時停止しています（権限確認やユーザー入力待ちの可能性があります）"

/-- The watchdog timer firing for a job (the `setTimeout` callback in
`startWaitingMonitor`): if an un-notified entry exists it is marked notified
and the stalled reply is posted at level warn without mention; otherwise
nothing happens. -/
def fireWaitingMonitor (monitors : Monitors) (jobId : String) :
    Monitors × List Event :=
  match monitors.find? (fun n => n.jobId == jobId) with
  | none => (monitors, [])
  | some n =>
    if n.notified then (monitors, [])
    else
      (monitors.map fun m => if m.jobId == jobId then { m with notified := true } else m,
       [.slack (.reply n.channel n.threadTs stalledText .warn false)])

/-- Outcome of one operation: a structured result, or a hard error (a thrown
exception in the MCP tools, a non-zero process exit in the CLI). -/
inductive Outcome (α : Type) where
  | ok (a : α)
  | error (msg : String)
deriving DecidableEq, Repr

/-- Result of an operation that can touch the ledger. -/
structure StoreResult (α : Type) where
  out : Outcome α
  store : ThreadStore
  events : List Event
deriving DecidableEq, Repr

/-- Result of an MCP operation that can also touch the watchdog monitors. -/
structure MonResult (α : Type) where
  out : Outcome α
  store : ThreadStore
  monitors : Monitors
  events : List Event
deriving DecidableEq, Repr

/-- Structured output of the start operations. -/
structure StartOutput where
  jobId : String
  channel : String
  threadTs : String
  permalink : Option String
deriving DecidableEq, Repr

/-- Structured output of the reply-class operations. -/
structure ToolOutput where
  ok : Bool
  reason : Option String := none
  note : Option String := none
deriving DecidableEq, Repr

/-- Structured output of the CLI update command (prints `{ok, ts}`). -/
structure CliUpdateOutput where
  ok : Bool
  ts : Option String := none
  reason : Option String := none
deriving DecidableEq, Repr

/-- The MCP tool surface. -/
inductive McpTool where
  | start
  | update
  | waiting
  | complete
  | fail
deriving DecidableEq, Repr

/-- Mention flag resolution of the MCP tools: `mention !== false` for start,
waiting, complete and fail; `mention === true` for update. -/
def mcpMention (tool : McpTool) (mentionOpt : Option Bool) : Bool :=
  match tool with
  | .update => mentionOpt == some true
  | _ => mentionOpt != some false

/-- Thread-handle resolution of every MCP tool other than start:
`thread_ts || state?.threadTs` (explicit caller handle first, then the
ledger-stored handle; empty strings are falsy). -/
def mcpTargetThreadTs (threadTsOpt : String) (state : Option ThreadState) : String :=
  jsOr threadTsOpt (match state with | some s => s.threadTs | none => "")

/-- Channel resolution of the MCP reply-class tools:
`state?.channel || slackClient.getDefaultChannel()`. -/
def mcpTargetChannel (defaultChannel : String) (state : Option ThreadState) : String :=
  jsOr (match state with | some s => s.channel | none => "") defaultChannel

/-- Title resolution of the MCP waiting/complete/fail tools:
`state?.title || job_id`. -/
def mcpTitle (jobId : String) (state : Option ThreadState) : String :=
  jsOr (match state with | some s => s.title | none => "") jobId

/-- The `slack_thread_start` tool: idempotent reuse of an existing ledger
entry; otherwise posts the parent message, creating the entry only on a
confirmed success and raising a hard error on a failed post. -/
def mcpStart (store : ThreadStore) (defaultChannel jobId title : String)
    (channelOpt : Option String) (meta : Option MetaData) (mentionOpt : Option Bool)
    (parentRes : PostResult) (now : Nat) : StoreResult StartOutput :=
  match store.get jobId with
  | some existing =>
    ⟨.ok ⟨existing.jobId, existing.channel, existing.threadTs, existing.permalink⟩,
      store, []⟩
  | none =>
    let targetChannel := channelOpt.getD defaultChannel
    let (res, evs) :=
      postParentMessage targetChannel title meta (mcpMention .start mentionOpt) parentRes
    if res.ok then
      let created := store.create jobId res.channel res.ts title res.permalink now
      ⟨.ok ⟨created.1.jobId, created.1.channel, created.1.threadTs, created.1.permalink⟩,
        created.2, evs ++ [.storeCreate jobId]⟩
    else
      ⟨.error "Slack投稿に失敗しました", store, evs⟩

/-- The `slack_thread_update` tool: resolves a thread handle or raises a hard
error; no-ops on a terminal job; otherwise cancels the watchdog, writes
status `in_progress` when the job exists, posts the reply, and re-arms the
watchdog unless disabled. -/
def mcpUpdate (store : ThreadStore) (monitors : Monitors)
    (defaultChannel jobId message threadTsOpt : String) (levelOpt : Option Level)
    (mentionOpt : Option Bool) (enableWaitingMonitor : Option Bool)
    (replyRes : ReplyResult) (now : Nat) : MonResult ToolOutput :=
  let state := store.get jobId
  let targetThreadTs := mcpTargetThreadTs threadTsOpt state
  let targetChannel := mcpTargetChannel defaultChannel state
  if targetThreadTs = "" then
    ⟨.error "スレッドが見つかりません", store, monitors, []⟩
  else if state.isSome && store.isTerminal jobId then
    ⟨.ok { ok := false, reason := some "ジョブは既に終了しています" }, store, monitors, []⟩
  else
    let monitors1 := cancelWaitingMonitor monitors jobId
    let store1 := if state.isSome then (store.updateStatus jobId .in_progress now).2 else store
    let statusEvents : List Event :=
      if state.isSome then [.storeSetStatus jobId .in_progress] else []
    let (res, postEvents) :=
      postThreadReply targetChannel targetThreadTs message (levelOpt.getD .info)
        (mcpMention .update mentionOpt) replyRes
    let monitors2 :=
      if enableWaitingMonitor != some false then
        startWaitingMonitor monitors1 jobId targetChannel targetThreadTs
      else monitors1
    ⟨.ok { ok := res.ok }, store1, monitors2, statusEvents ++ postEvents⟩

/-- The `slack_thread_waiting` tool: resolves a thread handle or raises a
hard error; no-ops on a terminal job; otherwise posts the waiting message.
It performs no ledger write and does not cancel the watchdog monitor. -/
def mcpWaiting (store : ThreadStore) (monitors : Monitors)
    (defaultChannel jobId threadTsOpt reasonOpt : String) (mentionOpt : Option Bool)
    (replyRes : ReplyResult) : MonResult ToolOutput :=
  let state := store.get jobId
  let targetThreadTs := mcpTargetThreadTs threadTsOpt state
  let targetChannel := mcpTargetChannel defaultChannel state
  let title := mcpTitle jobId state
  if targetThreadTs = "" then
    ⟨.error "スレッドが見つかりません", store, monitors, []⟩
  else if state.isSome && store.isTerminal jobId then
    ⟨.ok { ok := false, reason := some "ジョブは既に終了しています" }, store, monitors, []⟩
  else
    let reasonText := jsOr reasonOpt "権限確認またはユーザー入力待ち"
    let (res, evs) :=
      postWaiting targetChannel targetThreadTs title reasonText
        (mcpMention .waiting mentionOpt) replyRes
    ⟨.ok { ok := res.ok }, store, monitors, evs⟩

/-- The `slack_thread_complete` tool: resolves a thread handle or raises a
hard error; cancels the watchdog; reports already-terminal idempotently;
otherwise posts the completion reply and writes status `completed` only when
the post succeeded and the job exists. -/
def mcpComplete (store : ThreadStore) (monitors : Monitors)
    (defaultChannel jobId threadTsOpt : String) (summary : Option String)
    (nextSuggestions : Option (List String)) (mentionOpt : Option Bool)
    (replyRes : ReplyResult) (now : Nat) : MonResult ToolOutput :=
  let state := store.get jobId
  let targetThreadTs := mcpTargetThreadTs threadTsOpt state
  let targetChannel := mcpTargetChannel defaultChannel state
  let title := mcpTitle jobId state
  if targetThreadTs = "" then
    ⟨.error "スレッドが見つかりません", store, monitors, []⟩
  else
    let monitors1 := cancelWaitingMonitor monitors jobId
    if state.isSome && store.isTerminal jobId then
      ⟨.ok { ok := true, note := some "ジョブは既に終了済みです" }, store, monitors1, []⟩
    else
      let (res, evs) :=
        postComplete targetChannel targetThreadTs title summary nextSuggestions
          (mcpMention .complete mentionOpt) replyRes
      if res.ok && state.isSome then
        ⟨.ok { ok := res.ok }, (store.updateStatus jobId .completed now).2, monitors1,
          evs ++ [.storeSetStatus jobId .completed]⟩
      else
        ⟨.ok { ok := res.ok }, store, monitors1, evs⟩

/-- The `slack_thread_fail` tool: as `slack_thread_complete`, writing status
`failed` only when the post succeeded and the job exists. -/
def mcpFail (store : ThreadStore) (monitors : Monitors)
    (defaultChannel jobId threadTsOpt errorSummary : String)
    (logsHint : Option String) (mentionOpt : Option Bool)
    (replyRes : ReplyResult) (now : Nat) : MonResult ToolOutput :=
  let state := store.get jobId
  let targetThreadTs := mcpTargetThreadTs threadTsOpt state
  let targetChannel := mcpTargetChannel defaultChannel state
  let title := mcpTitle jobId state
  if targetThreadTs = "" then
    ⟨.error "スレッドが見つかりません", store, monitors, []⟩
  else
    let monitors1 := cancelWaitingMonitor monitors jobId
    if state.isSome && store.isTerminal jobId then
      ⟨.ok { ok := true, note := some "ジョブは既に終了済みです" }, store, monitors1, []⟩
    else
      let (res, evs) :=
        postFail targetChannel targetThreadTs title errorSummary logsHint
          (mcpMention .fail mentionOpt) replyRes
      if res.ok && state.isSome then
        ⟨.ok { ok := res.ok }, (store.updateStatus jobId .failed now).2, monitors1,
          evs ++ [.storeSetStatus jobId .failed]⟩
      else
        ⟨.ok { ok := res.ok }, store, monitors1, evs⟩

/-- Claude Code hook events observed by the CLI dispatch. -/
inductive HookEvent where
  | postToolUse
  | userPromptSubmit
  | stop
  | sessionStart
  | other
deriving DecidableEq, Repr

/-- The CLI command surface. -/
inductive CliCommand where
  | start
  | update
  | waiting
  | complete
  | fail
deriving DecidableEq, Repr

/-- Mention flag resolution of the CLI (`main`): an explicit `--mention`
option wins; otherwise the default is true for start and for update outside
a PostToolUse hook, and false for everything else. -/
def cliMention (cmd : CliCommand) (hookEvent : Option HookEvent)
    (mentionOpt : Option Bool) : Bool :=
  match mentionOpt with
  | some b => b
  | none => cmd == .start || (cmd == .update && hookEvent != some .postToolUse)

/-- Title derived from a working-directory hint: the last non-empty `/`
segment, or the fixed fallback label when there is none. -/
def cwdTitle (cwdHint : String) : String :=
  match ((cwdHint.splitOn "/").filter (fun p => p != "")).getLast? with
  | some p => p
  | none => "Claude Code Task"

/-- Lazy-creation title chain of `ensureThread`: caller-supplied title, else
stored title, else a title derived from the cwd hint, else the fixed
fallback label. -/
def lazyTitle (titleOverride stateTitle cwdHint : String) : String :=
  let t0 := jsOr titleOverride stateTitle
  let t1 := if t0 = "" ∧ cwdHint ≠ "" then cwdTitle cwdHint else t0
  jsOr t1 "Claude Code Task"

/-- Structured result of `ensureThread` (`LazyInitResult`). -/
structure LazyInitResult where
  threadTs : String
  channel : String
  title : String
  created : Bool
deriving DecidableEq, Repr

/-- `ensureThread` from cli.ts: reuse an existing non-empty handle; otherwise
lazily post the parent message with the resolved title, raising a hard error
on a failed post, and on success promote the placeholder entry
(`updateThreadTs`) or create a fresh one. -/
def ensureThread (store : ThreadStore) (jobId channel titleOverride cwdHint : String)
    (mention : Bool) (parentRes : PostResult) (now : Nat) :
    StoreResult LazyInitResult :=
  match store.get jobId with
  | some s =>
    if s.threadTs ≠ "" then
      ⟨.ok ⟨s.threadTs, s.channel, s.title, false⟩, store, []⟩
    else
      let title := lazyTitle titleOverride s.title cwdHint
      let (res, evs) := postParentMessage channel title none mention parentRes
      if res.ok then
        ⟨.ok ⟨res.ts, res.channel, title, true⟩,
          store.updateThreadTs jobId res.ts res.permalink,
          evs ++ [.storeSetThreadTs jobId res.ts]⟩
      else
        ⟨.error "Failed to create Slack thread", store, evs⟩
  | none =>
    let title := lazyTitle titleOverride "" cwdHint
    let (res, evs) := postParentMessage channel title none mention parentRes
    if res.ok then
      ⟨.ok ⟨res.ts, res.channel, title, true⟩,
        (store.create jobId res.channel res.ts title res.permalink now).2,
        evs ++ [.storeCreate jobId]⟩
    else
      ⟨.error "Failed to create Slack thread", store, evs⟩

/-- The CLI `start` command: idempotent reuse of an existing entry; in silent
mode only a placeholder entry with an empty handle is created and nothing is
posted; otherwise the parent message is posted, a failed post being a hard
error (non-zero exit). -/
def cliStart (store : ThreadStore) (jobId channel titleOpt : String) (silent : Bool)
    (meta : Option MetaData) (mention : Bool) (parentRes : PostResult) (now : Nat) :
    StoreResult StartOutput :=
  let title := jsOr titleOpt "Claude Code Task"
  match store.get jobId with
  | some existing =>
    ⟨.ok ⟨existing.jobId, existing.channel, existing.threadTs, existing.permalink⟩,
      store, []⟩
  | none =>
    if silent then
      let created := store.create jobId channel "" title none now
      ⟨.ok ⟨created.1.jobId, created.1.channel, created.1.threadTs, created.1.permalink⟩,
        created.2, [.storeCreate jobId]⟩
    else
      let (res, evs) := postParentMessage channel title meta mention parentRes
      if res.ok then
        let created := store.create jobId res.channel res.ts title res.permalink now
        ⟨.ok ⟨created.1.jobId, created.1.channel, created.1.threadTs, created.1.permalink⟩,
          created.2, evs ++ [.storeCreate jobId]⟩
      else
        ⟨.error "Failed to post to Slack", store, evs⟩

/-- The CLI `update` command, for invocations that supply an explicit
`--message` (the hook-driven auto-generation branches all require the message
to be absent and are skipped then).  `threadTsOpt` is the `--thread-ts`
option: cli.ts parses it into the generic options map but the update command
never reads it.  Ensures a thread lazily, no-ops on a terminal job, writes
status `in_progress` before posting, posts or upserts the reply, and stores
or clears the progress-message handle on a successful post. -/
def cliUpdate (store : ThreadStore) (jobId channel message : String)
    (titleOpt cwdOpt threadTsOpt : String) (upsertOpt : Bool)
    (hookEvent : Option HookEvent) (levelOpt : Option Level) (mention : Bool)
    (parentRes : PostResult) (replyRes : ReplyResult) (now : Nat) :
    StoreResult CliUpdateOutput :=
  let isPostToolUse := hookEvent == some .postToolUse
  let useUpsert := upsertOpt || isPostToolUse
  match ensureThread store jobId channel titleOpt cwdOpt mention parentRes now with
  | ⟨.error e, store1, evs1⟩ => ⟨.error e, store1, evs1⟩
  | ⟨.ok thread, store1, evs1⟩ =>
    if store1.isTerminal jobId then
      ⟨.ok { ok := false, reason := some "Job already terminated" }, store1, evs1⟩
    else
      let store2 := (store1.updateStatus jobId .in_progress now).2
      let evs2 : List Event := [.storeSetStatus jobId .in_progress]
      let existingMessageTs :=
        if useUpsert then store2.getProgressMessageTs jobId else none
      let (res, evs3) :=
        upsertThreadReply thread.channel thread.threadTs message (levelOpt.getD .info)
          mention existingMessageTs replyRes
      let step4 : ThreadStore × List Event :=
        if res.ok && tsTruthy res.ts then
          if hookEvent == some .stop then
            (store2.clearProgressMessageTs jobId, [.storeClearProgressTs jobId])
          else if useUpsert then
            match res.ts with
            | some ts => (store2.updateProgressMessageTs jobId ts, [.storeSetProgressTs jobId ts])
            | none => (store2, [])
          else (store2, [])
        else (store2, [])
      ⟨.ok { ok := res.ok, ts := res.ts }, step4.1, evs1 ++ evs2 ++ evs3 ++ step4.2⟩

/-- Lookup table mapping a hook notification type to a waiting reason
(`typeMap[x] || x` in cli.ts). -/
def notificationTypeMap (t : String) : String :=
  if t = "permission_prompt" then "権限確認待ち"
  else if t = "idle_prompt" then "アイドル状態"
  else if t = "auth_success" then "認証成功"
  else if t = "elicitation_dialog" then "追加情報の入力待ち"
  else t

/-- Waiting-reason chain of the CLI `waiting` command: explicit `--reason`,
else the hook notification message, else a reason derived from the
notification type, else the fixed default. -/
def cliWaitingReason (reasonOpt hookMessage notificationType : String) : String :=
  jsOr reasonOpt (jsOr hookMessage
    (jsOr (if notificationType = "" then "" else notificationTypeMap notificationType)
      "Waiting for permission or user input"))

/-- The CLI `waiting` command: ensures a thread lazily, no-ops on a terminal
job, posts the waiting message (overwriting an existing coalescable reply if
one is stored), and clears the progress-message handle on success. -/
def cliWaiting (store : ThreadStore)
    (jobId channel titleOpt cwdOpt reasonOpt hookMessage notificationType : String)
    (mention : Bool) (parentRes : PostResult) (replyRes : ReplyResult) (now : Nat) :
    StoreResult ToolOutput :=
  match ensureThread store jobId channel titleOpt cwdOpt mention parentRes now with
  | ⟨.error e, store1, evs1⟩ => ⟨.error e, store1, evs1⟩
  | ⟨.ok thread, store1, evs1⟩ =>
    if store1.isTerminal jobId then
      ⟨.ok { ok := false, reason := some "Job already terminated" }, store1, evs1⟩
    else
      let reasonText := cliWaitingReason reasonOpt hookMessage notificationType
      let existingMessageTs := store1.getProgressMessageTs jobId
      let (res, evs2) :=
        postWaitingUpsert thread.channel thread.threadTs thread.title reasonText
          mention existingMessageTs replyRes
      if res.ok then
        ⟨.ok { ok := res.ok }, store1.clearProgressMessageTs jobId,
          evs1 ++ evs2 ++ [.storeClearProgressTs jobId]⟩
      else
        ⟨.ok { ok := res.ok }, store1, evs1 ++ evs2⟩

/-- The CLI `complete` command: ensures a thread lazily, reports
already-terminal idempotently, posts the completion reply, and writes status
`completed` only on a confirmed success. -/
def cliComplete (store : ThreadStore) (jobId channel titleOpt cwdOpt : String)
    (summary : Option String) (nextSuggestions : Option (List String))
    (mention : Bool) (parentRes : PostResult) (replyRes : ReplyResult) (now : Nat) :
    StoreResult ToolOutput :=
  match ensureThread store jobId channel titleOpt cwdOpt mention parentRes now with
  | ⟨.error e, store1, evs1⟩ => ⟨.error e, store1, evs1⟩
  | ⟨.ok thread, store1, evs1⟩ =>
    if store1.isTerminal jobId then
      ⟨.ok { ok := true, note := some "Job already terminated" }, store1, evs1⟩
    else
      let (res, evs2) :=
        postComplete thread.channel thread.threadTs thread.title summary
          nextSuggestions mention replyRes
      if res.ok then
        ⟨.ok { ok := res.ok }, (store1.updateStatus jobId .completed now).2,
          evs1 ++ evs2 ++ [.storeSetStatus jobId .completed]⟩
      else
        ⟨.ok { ok := res.ok }, store1, evs1 ++ evs2⟩

/-- The CLI `fail` command: as `complete`, writing status `failed` only on a
confirmed success. -/
def cliFail (store : ThreadStore) (jobId channel titleOpt cwdOpt errorSummary : String)
    (logsHint : Option String) (mention : Bool) (parentRes : PostResult)
    (replyRes : ReplyResult) (now : Nat) : StoreResult ToolOutput :=
  match ensureThread store jobId channel titleOpt cwdOpt mention parentRes now with
  | ⟨.error e, store1, evs1⟩ => ⟨.error e, store1, evs1⟩
  | ⟨.ok thread, store1, evs1⟩ =>
    if store1.isTerminal jobId then
      ⟨.ok { ok := true, note := some "Job already terminated" }, store1, evs1⟩
    else
      let (res, evs2) :=
        postFail thread.channel thread.threadTs thread.title errorSummary logsHint
          mention replyRes
      if res.ok then
        ⟨.ok { ok := res.ok }, (store1.updateStatus jobId .failed now).2,
          evs1 ++ evs2 ++ [.storeSetStatus jobId .failed]⟩
      else
        ⟨.ok { ok := res.ok }, store1, evs1 ++ evs2⟩

/-! Concrete fixtures used to evaluate the operations at specific inputs. -/

/-- A job that has already completed, with a real thread handle. -/
def doneJob : ThreadState :=
  { jobId := "job-1", channel := "C1", threadTs := "111.222", title := "Deploy",
    status := .completed, createdAt := 1, updatedAt := 2,
    permalink := some "https://slack.example/p111222", progressMessageTs := none }

/-- A job that has started, with a real thread handle and no coalescable
progress-message handle. -/
def runJob : ThreadState :=
  { jobId := "job-2", channel := "C1", threadTs := "333.444", title := "Build",
    status := .started, createdAt := 1, updatedAt := 1,
    permalink := none, progressMessageTs := none }

/-- Fifty distinct persisted job states, for the round-trip evaluation. -/
def roundtripStates : List ThreadState :=
  (List.range 50).map (fun i =>
    { jobId := toString i, channel := "C0", threadTs := toString (1000 + i),
      title := "job", status := .started, createdAt := i, updatedAt := i,
      permalink := none, progressMessageTs := none })

/-! Helper lemmas about the ledger map. -/

theorem find?_imp_any {l : List ThreadState} {j : String} {s : ThreadState}
    (h : l.find? (fun t => t.jobId == j) = some s) :
    l.any (fun t => t.jobId == j) = true := by
  have hmem := List.mem_of_find?_eq_some h
  have hp := List.find?_some h
  exact List.any_eq_true.mpr ⟨s, hmem, hp⟩

theorem find?_map_update {l : List ThreadState} {j : String} {t : ThreadState}
    (ht : t.jobId = j) (hl : l.any (fun x => x.jobId == j) = true) :
    (l.map (fun x => if x.jobId == t.jobId then t else x)).find?
      (fun x => x.jobId == j) = some t := by
  induction l with
  | nil => simp at hl
  | cons a rest ih =>
    simp only [List.any_cons, Bool.or_eq_true] at hl
    by_cases h : a.jobId = j
    · simp [ht, h]
    · have hrest : (rest.any fun x => x.jobId == j) = true := by
        rcases hl with hl | hl
        · exact absurd (by simpa using hl) h
        · exact hl
      simp only [List.map_cons]
      rw [if_neg (by simp [ht, h])]
      rw [List.find?_cons_of_neg _ (by simp [h])]
      exact ih hrest

/-- Overwriting a present key leaves lookup pointing at the new value. -/
theorem ThreadStore.get_set_self {store : ThreadStore} {j : String}
    {s t : ThreadState} (h : store.get j = some s) (ht : t.jobId = j) :
    (store.set t).get j = some t := by
  unfold ThreadStore.get ThreadStore.set
  unfold ThreadStore.get at h
  have hany : (store.threads.any fun x => x.jobId == t.jobId) = true := by
    rw [ht]; exact find?_imp_any h
  simp only [hany, if_true]
  exact find?_map_update ht (by rw [← ht] at h ⊢; exact hany)

/-- Inserting a fresh key makes lookup return the new value. -/
theorem ThreadStore.get_set_new {store : ThreadStore} {j : String}
    {t : ThreadState} (h : store.get j = none) (ht : t.jobId = j) :
    (store.set t).get j = some t := by
  unfold ThreadStore.get ThreadStore.set
  unfold ThreadStore.get at h
  have hany : (store.threads.any fun x => x.jobId == t.jobId) = false := by
    rw [List.any_eq_false]
    intro a ha
    have := List.find?_eq_none.mp h a ha
    simpa [ht] using this
  simp only [hany, Bool.false_eq_true, if_false]
  rw [List.find?_append, List.find?_eq_none.mpr (by
    intro a ha
    exact List.find?_eq_none.mp h a ha)]
  simp [ht]

/-- A stored terminal status makes `isTerminal` true. -/
theorem ThreadStore.isTerminal_of_get {store : ThreadStore} {j : String}
    {s : ThreadState} (h : store.get j = some s)
    (ht : s.status = .completed ∨ s.status = .failed) :
    store.isTerminal j = true := by
  unfold ThreadStore.isTerminal
  rw [h]
  rcases ht with ht | ht <;> simp [ht]

/-- A stored non-terminal status makes `isTerminal` false. -/
theorem ThreadStore.isTerminal_of_get_false {store : ThreadStore} {j : String}
    {s : ThreadState} (h : store.get j = some s)
    (ht : s.status = .started ∨ s.status = .in_progress) :
    store.isTerminal j = false := by
  unfold ThreadStore.isTerminal
  rw [h]
  rcases ht with ht | ht <;> simp [ht]

/-- `ensureThread` on a job whose stored handle is non-empty returns the
stored identifiers, posts nothing and leaves the ledger unchanged. -/
theorem ensureThread_existing {store : ThreadStore} {jobId : String}
    {s : ThreadState} (ch titleOverride cwdHint : String) (mention : Bool)
    (parentRes : PostResult) (now : Nat)
    (h : store.get jobId = some s) (hts : s.threadTs ≠ "") :
    ensureThread store jobId ch titleOverride cwdHint mention parentRes now =
      ⟨.ok ⟨s.threadTs, s.channel, s.title, false⟩, store, []⟩ := by
  unfold ensureThread
  rw [h]
  simp [hts]

/-- The fold inside `loadFromDisk` appends states with fresh keys in order. -/
theorem loadFromDisk_go (l : List ThreadState) (acc : List ThreadState)
    (hdisj : ∀ s ∈ l, ∀ a ∈ acc, s.jobId ≠ a.jobId)
    (hnodup : (l.map (fun s => s.jobId)).Nodup) :
    (List.foldl (fun st s => ThreadStore.set st s) ⟨acc⟩ l).threads = acc ++ l := by
  induction l generalizing acc with
  | nil => simp
  | cons hd rest ih =>
    have hany : (acc.any fun t => t.jobId == hd.jobId) = false := by
      rw [List.any_eq_false]
      intro a ha
      simp only [beq_iff_eq]
      exact fun heq2 => (hdisj hd (by simp) a ha) heq2.symm
    have hstep : ThreadStore.set ⟨acc⟩ hd = ⟨acc ++ [hd]⟩ := by
      unfold ThreadStore.set
      simp [hany]
    have hhd : hd.jobId ∉ rest.map (fun t => t.jobId) := by
      simp only [List.map_cons, List.nodup_cons] at hnodup
      exact hnodup.1
    simp only [List.foldl_cons, hstep]
    rw [ih (acc ++ [hd])
      (by
        intro x hx a ha
        rcases List.mem_append.mp ha with ha2 | ha2
        · exact hdisj x (by simp [hx]) a ha2
        · have hxa : a = hd := by simpa using ha2
          intro hcontra
          rw [hxa] at hcontra
          exact hhd (by
            rw [← hcontra]
            exact List.mem_map.mpr ⟨x, hx, rfl⟩))
      (by
        simp only [List.map_cons, List.nodup_cons] at hnodup
        exact hnodup.2)]
    simp

/-- Claim C9: persisting the full ledger and reconstructing a fresh ledger
from that storage yields, via `list()`, exactly the original states, field
for field, for any number of states (the jobIds of a well-formed ledger are
pairwise distinct). -/
theorem persistence_roundtrip (store : ThreadStore)
    (hnodup : (store.threads.map (fun s => s.jobId)).Nodup) :
    (ThreadStore.loadFromDisk store.saveToDisk).list = store.list := by
  unfold ThreadStore.loadFromDisk ThreadStore.saveToDisk ThreadStore.list
  rw [loadFromDisk_go store.threads [] (by intro s hs a ha; simp at ha) hnodup]
  simp

/-- Witness for the round-trip theorem at a concrete fifty-state ledger. -/
theorem persistence_roundtrip_witness :
    ((⟨roundtripStates⟩ : ThreadStore).threads.map (fun s => s.jobId)).Nodup ∧
    (ThreadStore.loadFromDisk (ThreadStore.saveToDisk ⟨roundtripStates⟩)).list
      = (⟨roundtripStates⟩ : ThreadStore).list :=
  ⟨by decide, persistence_roundtrip ⟨roundtripStates⟩ (by decide)⟩

/-- Claim C1: for every job whose ledger status is completed or failed (and
which, per the spec's data-model invariant, carries a non-empty thread
handle), each of update, wait, complete and fail — both as MCP tools and as
CLI commands — performs no Slack call and no ledger write, leaving the
ledger, and hence the job's status and updatedAt fields, unchanged. -/
theorem terminal_absorption
    (store : ThreadStore) (monitors : Monitors) (s : ThreadState)
    (defCh jobId msg tsOpt reasonOpt errS : String)
    (cch cmsg ctitle ccwd ctso creason chm cnt cerrS : String)
    (lvl clvl : Option Level) (mo ew : Option Bool) (up : Bool)
    (he : Option HookEvent) (sm csm : Option String) (sg csg : Option (List String))
    (lg clg : Option String) (mn : Bool) (pr : PostResult) (rr : ReplyResult)
    (now : Nat)
    (hget : store.get jobId = some s)
    (hterm : s.status = .completed ∨ s.status = .failed)
    (hts : s.threadTs ≠ "") :
    ((mcpUpdate store monitors defCh jobId msg tsOpt lvl mo ew rr now).store = store ∧
      (mcpUpdate store monitors defCh jobId msg tsOpt lvl mo ew rr now).events = []) ∧
    ((mcpWaiting store monitors defCh jobId tsOpt reasonOpt mo rr).store = store ∧
      (mcpWaiting store monitors defCh jobId tsOpt reasonOpt mo rr).events = []) ∧
    ((mcpComplete store monitors defCh jobId tsOpt sm sg mo rr now).store = store ∧
      (mcpComplete store monitors defCh jobId tsOpt sm sg mo rr now).events = []) ∧
    ((mcpFail store monitors defCh jobId tsOpt errS lg mo rr now).store = store ∧
      (mcpFail store monitors defCh jobId tsOpt errS lg mo rr now).events = []) ∧
    ((cliUpdate store jobId cch cmsg ctitle ccwd ctso up he clvl mn pr rr now).store = store ∧
      (cliUpdate store jobId cch cmsg ctitle ccwd ctso up he clvl mn pr rr now).events = []) ∧
    ((cliWaiting store jobId cch ctitle ccwd creason chm cnt mn pr rr now).store = store ∧
      (cliWaiting store jobId cch ctitle ccwd creason chm cnt mn pr rr now).events = []) ∧
    ((cliComplete store jobId cch ctitle ccwd csm csg mn pr rr now).store = store ∧
      (cliComplete store jobId cch ctitle ccwd csm csg mn pr rr now).events = []) ∧
    ((cliFail store jobId cch ctitle ccwd cerrS clg mn pr rr now).store = store ∧
      (cliFail store jobId cch ctitle ccwd cerrS clg mn pr rr now).events = []) := by
  have hT := ThreadStore.isTerminal_of_get hget hterm
  have hE := ensureThread_existing cch ctitle ccwd mn pr now hget hts
  refine ⟨?_, ?_, ?_, ?_, ?_, ?_, ?_, ?_⟩
  · unfold mcpUpdate
    rw [hget]
    by_cases hc : mcpTargetThreadTs tsOpt (some s) = "" <;> simp [hc, hT]
  · unfold mcpWaiting
    rw [hget]
    by_cases hc : mcpTargetThreadTs tsOpt (some s) = "" <;> simp [hc, hT]
  · unfold mcpComplete
    rw [hget]
    by_cases hc : mcpTargetThreadTs tsOpt (some s) = "" <;> simp [hc, hT]
  · unfold mcpFail
    rw [hget]
    by_cases hc : mcpTargetThreadTs tsOpt (some s) = "" <;> simp [hc, hT]
  · unfold cliUpdate
    rw [hE]
    simp [hT]
  · unfold cliWaiting
    rw [hE]
    simp [hT]
  · unfold cliComplete
    rw [hE]
    simp [hT]
  · unfold cliFail
    rw [hE]
    simp [hT]

/-- Witness for terminal absorption at a concrete completed job. -/
theorem terminal_absorption_witness :
    ((⟨[doneJob]⟩ : ThreadStore).get "job-1" = some doneJob ∧
      (doneJob.status = .completed ∨ doneJob.status = .failed) ∧
      doneJob.threadTs ≠ "") ∧
    (mcpComplete ⟨[doneJob]⟩ [] "C0" "job-1" "" none none none ⟨true, some "9.1"⟩ 9).store
      = ⟨[doneJob]⟩ ∧
    (cliComplete ⟨[doneJob]⟩ "job-1" "C1" "" "" none none true
      ⟨true, "C1", "999.1", none⟩ ⟨true, some "9.1"⟩ 9).events = [] := by
  have h := terminal_absorption ⟨[doneJob]⟩ [] doneJob
    "C0" "job-1" "m" "" "" "err" "C1" "m" "" "" "" "" "" "" "e"
    none none none none false none none none none none none none true
    ⟨true, "C1", "999.1", none⟩ ⟨true, some "9.1"⟩ 9
    (by decide) (Or.inl (by decide)) (by decide)
  exact ⟨⟨by decide, Or.inl (by decide), by decide⟩,
    h.2.2.1.1, h.2.2.2.2.2.2.1.2⟩

/-- First-call shape of `mcpStart` on a fresh job with a successful post. -/
theorem mcpStart_fresh (store : ThreadStore) (defCh jobId title : String)
    (chOpt : Option String) (meta : Option MetaData) (mo : Option Bool)
    (p : PostResult) (now : Nat)
    (hget : store.get jobId = none) (hok : p.ok = true) :
    mcpStart store defCh jobId title chOpt meta mo p now =
      ⟨.ok ⟨jobId, p.channel, p.ts, p.permalink⟩,
        (store.create jobId p.channel p.ts title p.permalink now).2,
        [.slack (.parent (chOpt.getD defCh) title meta (mcpMention .start mo)),
          .storeCreate jobId]⟩ := by
  unfold mcpStart
  rw [hget]
  simp [postParentMessage, hok, ThreadStore.create]

/-- First-call shape of non-silent `cliStart` on a fresh job with a
successful post. -/
theorem cliStart_fresh (store : ThreadStore) (jobId ch titleOpt : String)
    (meta : Option MetaData) (mn : Bool) (p : PostResult) (now : Nat)
    (hget : store.get jobId = none) (hok : p.ok = true) :
    cliStart store jobId ch titleOpt false meta mn p now =
      ⟨.ok ⟨jobId, p.channel, p.ts, p.permalink⟩,
        (store.create jobId p.channel p.ts (jsOr titleOpt "Claude Code Task") p.permalink now).2,
        [.slack (.parent ch (jsOr titleOpt "Claude Code Task") meta mn),
          .storeCreate jobId]⟩ := by
  unfold cliStart
  rw [hget]
  simp [postParentMessage, hok, ThreadStore.create]

/-- Lookup after `create` finds the created state. -/
theorem ThreadStore.get_create (store : ThreadStore) (jobId ch ts title : String)
    (pl : Option String) (now : Nat) (hget : store.get jobId = none) :
    (store.create jobId ch ts title pl now).2.get jobId
      = some (store.create jobId ch ts title pl now).1 :=
  ThreadStore.get_set_new hget rfl

/-- Claim C2: after a successful start for a fresh jobId, a second start
for the same jobId (any title, channel, oracle) returns the original
channel, thread handle and permalink, posts nothing and leaves the ledger
unchanged; across both calls exactly one top-level message is posted.  This
holds for the MCP start tool and for the non-silent CLI start command. -/
theorem start_idempotent
    (store cstore : ThreadStore) (jobId : String)
    (defCh titleA titleB cch ctitleA ctitleB : String)
    (chA chB : Option String) (metaA metaB cmetaA cmetaB : Option MetaData)
    (moA moB : Option Bool) (cmA cmB : Bool) (csilent : Bool)
    (p1 p2 cp1 cp2 : PostResult) (n1 n2 n3 n4 : Nat)
    (hget : store.get jobId = none) (hok : p1.ok = true)
    (hcget : cstore.get jobId = none) (hcok : cp1.ok = true) :
    (let r1 := mcpStart store defCh jobId titleA chA metaA moA p1 n1
     let r2 := mcpStart r1.store defCh jobId titleB chB metaB moB p2 n2
     r1.out = .ok ⟨jobId, p1.channel, p1.ts, p1.permalink⟩ ∧
     r2.out = r1.out ∧ r2.store = r1.store ∧ r2.events = [] ∧
     (r1.events ++ r2.events).countP Event.isParentPost = 1) ∧
    (let c1 := cliStart cstore jobId cch ctitleA false cmetaA cmA cp1 n3
     let c2 := cliStart c1.store jobId cch ctitleB csilent cmetaB cmB cp2 n4
     c1.out = .ok ⟨jobId, cp1.channel, cp1.ts, cp1.permalink⟩ ∧
     c2.out = c1.out ∧ c2.store = c1.store ∧ c2.events = [] ∧
     (c1.events ++ c2.events).countP Event.isParentPost = 1) := by
  constructor
  · have h1 := mcpStart_fresh store defCh jobId titleA chA metaA moA p1 n1 hget hok
    have hget2 := ThreadStore.get_create store jobId p1.channel p1.ts titleA p1.permalink n1 hget
    have h2 : mcpStart (store.create jobId p1.channel p1.ts titleA p1.permalink n1).2
        defCh jobId titleB chB metaB moB p2 n2 =
        ⟨.ok ⟨jobId, p1.channel, p1.ts, p1.permalink⟩,
          (store.create jobId p1.channel p1.ts titleA p1.permalink n1).2, []⟩ := by
      unfold mcpStart
      rw [hget2]
      rfl
    simp only [h1, h2]
    simp [List.countP, List.countP.go, Event.isParentPost, SlackCall.isParent]
  · have h1 := cliStart_fresh cstore jobId cch ctitleA cmetaA cmA cp1 n3 hcget hcok
    have hget2 := ThreadStore.get_create cstore jobId cp1.channel cp1.ts
      (jsOr ctitleA "Claude Code Task") cp1.permalink n3 hcget
    have h2 : cliStart (cstore.create jobId cp1.channel cp1.ts
          (jsOr ctitleA "Claude Code Task") cp1.permalink n3).2
        jobId cch ctitleB csilent cmetaB cmB cp2 n4 =
        ⟨.ok ⟨jobId, cp1.channel, cp1.ts, cp1.permalink⟩,
          (cstore.create jobId cp1.channel cp1.ts
            (jsOr ctitleA "Claude Code Task") cp1.permalink n3).2, []⟩ := by
      unfold cliStart
      rw [hget2]
      rfl
    simp only [h1, h2]
    simp [List.countP, List.countP.go, Event.isParentPost, SlackCall.isParent]

/-- Witness for start idempotency at concrete fresh stores. -/
theorem start_idempotent_witness :
    ((⟨[]⟩ : ThreadStore).get "j" = none ∧
      (⟨true, "C9", "42.1", some "L"⟩ : PostResult).ok = true) ∧
    (let r1 := mcpStart ⟨[]⟩ "C0" "j" "A" none none none ⟨true, "C9", "42.1", some "L"⟩ 1
     let r2 := mcpStart r1.store "C0" "j" "B" none none none ⟨false, "", "", none⟩ 2
     r1.out = .ok ⟨"j", "C9", "42.1", some "L"⟩ ∧
     r2.out = r1.out ∧ r2.store = r1.store ∧ r2.events = [] ∧
     (r1.events ++ r2.events).countP Event.isParentPost = 1) := by
  refine ⟨⟨by decide, by decide⟩, ?_⟩
  have h := start_idempotent ⟨[]⟩ ⟨[]⟩ "j" "C0" "A" "B" "C0" "A2" "B2"
    none none none none none none none none true true false
    ⟨true, "C9", "42.1", some "L"⟩ ⟨false, "", "", none⟩
    ⟨true, "C9", "42.1", some "L"⟩ ⟨false, "", "", none⟩ 1 2 3 4
    (by decide) (by decide) (by decide) (by decide)
  exact h.1

/-- Claim C10: calling the MCP update or waiting tool with an explicit
thread_ts for a job_id absent from the ledger posts the reply into the
default channel under that handle, while the ledger is left entirely
unchanged — no JobState is created and no status is written. -/
theorem explicit_ts_absent_job_frame
    (store : ThreadStore) (monitors : Monitors)
    (defCh jobId msg tso reasonOpt : String) (lvl : Option Level)
    (mo ew : Option Bool) (rr : ReplyResult) (now : Nat)
    (hget : store.get jobId = none) (hts : tso ≠ "") :
    (let r := mcpUpdate store monitors defCh jobId msg tso lvl mo ew rr now
     r.store = store ∧
     r.events = [.slack (.reply defCh tso msg (lvl.getD .info) (mcpMention .update mo))]) ∧
    (let w := mcpWaiting store monitors defCh jobId tso reasonOpt mo rr
     w.store = store ∧
     w.events = [.slack (.waitingMsg defCh tso jobId
       (jsOr reasonOpt "権限確認またはユーザー入力待ち") (mcpMention .waiting mo))]) := by
  constructor
  · unfold mcpUpdate
    rw [hget]
    simp [mcpTargetThreadTs, mcpTargetChannel, jsOr, hts, postThreadReply]
  · unfold mcpWaiting
    rw [hget]
    simp [mcpTargetThreadTs, mcpTargetChannel, mcpTitle, jsOr, hts, postWaiting]

/-- Witness for the absent-job frame property at a concrete empty ledger. -/
theorem explicit_ts_absent_job_frame_witness :
    ((⟨[]⟩ : ThreadStore).get "jx" = none ∧ "123.456" ≠ "") ∧
    ((let r := mcpUpdate ⟨[]⟩ [] "C0" "jx" "m" "123.456" none none none ⟨true, some "7.7"⟩ 5
      r.store = ⟨[]⟩ ∧
      r.events = [.slack (.reply "C0" "123.456" "m" (Level.info) false)]) ∧
     (let w := mcpWaiting ⟨[]⟩ [] "C0" "jx" "123.456" "" none ⟨true, some "7.7"⟩
      w.store = ⟨[]⟩ ∧
      w.events = [.slack (.waitingMsg "C0" "123.456" "jx"
        "権限確認またはユーザー入力待ち" true)])) := by
  refine ⟨⟨by decide, by decide⟩, ?_⟩
  have h := explicit_ts_absent_job_frame ⟨[]⟩ [] "C0" "jx" "m" "123.456" ""
    none none none ⟨true, some "7.7"⟩ 5 (by decide) (by decide)
  exact ⟨⟨h.1.1, by simpa using h.1.2⟩, ⟨h.2.1, by simpa using h.2.2⟩⟩

/-- A value found by `get` carries the looked-up key. -/
theorem ThreadStore.get_jobId {store : ThreadStore} {jobId : String}
    {s : ThreadState} (h : store.get jobId = some s) : s.jobId = jobId := by
  unfold ThreadStore.get at h
  have := List.find?_some h
  simpa using this

/-- Shape of `updateStatus` on a present job. -/
theorem ThreadStore.updateStatus_present {store : ThreadStore} {jobId : String}
    {s : ThreadState} (status : JobStatus) (now : Nat)
    (hget : store.get jobId = some s) :
    store.updateStatus jobId status now =
      (true, store.set { s with status := status, updatedAt := now }) := by
  unfold ThreadStore.updateStatus
  rw [hget]

/-- Shape of `getProgressMessageTs` on a present job. -/
theorem ThreadStore.getProgressMessageTs_present {store : ThreadStore}
    {jobId : String} {s : ThreadState} (hget : store.get jobId = some s) :
    store.getProgressMessageTs jobId = s.progressMessageTs := by
  unfold ThreadStore.getProgressMessageTs
  rw [hget]

/-- Shape of `updateProgressMessageTs` on a present job. -/
theorem ThreadStore.updateProgressMessageTs_present {store : ThreadStore}
    {jobId : String} {s : ThreadState} (ts : String)
    (hget : store.get jobId = some s) :
    store.updateProgressMessageTs jobId ts =
      store.set { s with progressMessageTs := some ts } := by
  unfold ThreadStore.updateProgressMessageTs
  rw [hget]

/-- One CLI update with upsert requested on a job that has a real thread
handle and no coalescable handle: exactly one fresh reply is posted and the
returned handle is stored. -/
theorem cliUpdate_upsert_fresh (store : ThreadStore) (s : ThreadState)
    (jobId ch msg ti cw tso : String) (lvl : Option Level) (mn : Bool)
    (pr : PostResult) (t : String) (n : Nat)
    (hget : store.get jobId = some s) (hts : s.threadTs ≠ "")
    (hterm : store.isTerminal jobId = false)
    (hprog : s.progressMessageTs = none) (ht : t ≠ "") :
    cliUpdate store jobId ch msg ti cw tso true none lvl mn pr ⟨true, some t⟩ n =
      ⟨.ok { ok := true, ts := some t },
        (store.set { s with status := .in_progress, updatedAt := n }).set
          { s with status := .in_progress, updatedAt := n, progressMessageTs := some t },
        [Event.storeSetStatus jobId .in_progress,
          Event.slack (.reply s.channel s.threadTs msg (lvl.getD .info) mn),
          Event.storeSetProgressTs jobId t]⟩ := by
  have hjid : s.jobId = jobId := ThreadStore.get_jobId hget
  have hget1 : (store.set { s with status := .in_progress, updatedAt := n }).get jobId
      = some { s with status := .in_progress, updatedAt := n } :=
    ThreadStore.get_set_self hget (by simpa using hjid)
  have hprog1 : (store.set { s with status := .in_progress, updatedAt := n
      }).getProgressMessageTs jobId = none := by
    rw [ThreadStore.getProgressMessageTs_present hget1]
    simpa using hprog
  have hset := ThreadStore.updateProgressMessageTs_present t hget1
  unfold cliUpdate
  rw [ensureThread_existing ch ti cw mn pr n hget hts]
  simp only [hterm, Bool.false_eq_true, if_false,
    ThreadStore.updateStatus_present JobStatus.in_progress n hget,
    hprog1, upsertThreadReply, tsTruthy]
  simp [ht, hset]

/-- One CLI update with upsert requested on a job whose coalescable handle is
present: the stored reply is edited in place and the handle returned by the
edit is stored. -/
theorem cliUpdate_upsert_edit (store : ThreadStore) (s : ThreadState)
    (jobId ch msg ti cw tso pts : String) (lvl : Option Level) (mn : Bool)
    (pr : PostResult) (t : String) (n : Nat)
    (hget : store.get jobId = some s) (hts : s.threadTs ≠ "")
    (hterm : store.isTerminal jobId = false)
    (hprog : s.progressMessageTs = some pts) (ht : t ≠ "") :
    cliUpdate store jobId ch msg ti cw tso true none lvl mn pr ⟨true, some t⟩ n =
      ⟨.ok { ok := true, ts := some t },
        (store.set { s with status := .in_progress, updatedAt := n }).set
          { s with status := .in_progress, updatedAt := n, progressMessageTs := some t },
        [Event.storeSetStatus jobId .in_progress,
          Event.slack (.editReply s.channel pts msg (lvl.getD .info) mn),
          Event.storeSetProgressTs jobId t]⟩ := by
  have hjid : s.jobId = jobId := ThreadStore.get_jobId hget
  have hget1 : (store.set { s with status := .in_progress, updatedAt := n }).get jobId
      = some { s with status := .in_progress, updatedAt := n } :=
    ThreadStore.get_set_self hget (by simpa using hjid)
  have hprog1 : (store.set { s with status := .in_progress, updatedAt := n
      }).getProgressMessageTs jobId = some pts := by
    rw [ThreadStore.getProgressMessageTs_present hget1]
    simpa using hprog
  have hset := ThreadStore.updateProgressMessageTs_present t hget1
  unfold cliUpdate
  rw [ensureThread_existing ch ti cw mn pr n hget hts]
  simp only [hterm, Bool.false_eq_true, if_false,
    ThreadStore.updateStatus_present JobStatus.in_progress n hget,
    hprog1, upsertThreadReply, tsTruthy]
  simp [ht, hset]

/-- Claim C3: on a job with no coalescable progress-message handle, two
consecutive CLI update calls requesting upsert yield exactly one freshly
posted reply followed by one in-place edit of that reply, and afterwards the
stored progress-message handle equals the handle returned by the edit. -/
theorem upsert_coalescing (store : ThreadStore) (s : ThreadState)
    (jobId ch m1 m2 ti cw tso1 tso2 t1 t2 : String)
    (lvl1 lvl2 : Option Level) (mn1 mn2 : Bool) (pr1 pr2 : PostResult) (n1 n2 : Nat)
    (hget : store.get jobId = some s) (hts : s.threadTs ≠ "")
    (hterm : store.isTerminal jobId = false)
    (hprog : s.progressMessageTs = none)
    (ht1 : t1 ≠ "") (ht2 : t2 ≠ "") :
    slackCalls ((cliUpdate store jobId ch m1 ti cw tso1 true none lvl1 mn1 pr1 ⟨true, some t1⟩ n1).events ++
        (cliUpdate (cliUpdate store jobId ch m1 ti cw tso1 true none lvl1 mn1 pr1 ⟨true, some t1⟩ n1).store
          jobId ch m2 ti cw tso2 true none lvl2 mn2 pr2 ⟨true, some t2⟩ n2).events) =
      [.reply s.channel s.threadTs m1 (lvl1.getD .info) mn1,
        .editReply s.channel t1 m2 (lvl2.getD .info) mn2] ∧
    (cliUpdate (cliUpdate store jobId ch m1 ti cw tso1 true none lvl1 mn1 pr1 ⟨true, some t1⟩ n1).store
        jobId ch m2 ti cw tso2 true none lvl2 mn2 pr2 ⟨true, some t2⟩ n2).store.getProgressMessageTs jobId
      = some t2 ∧
    (cliUpdate (cliUpdate store jobId ch m1 ti cw tso1 true none lvl1 mn1 pr1 ⟨true, some t1⟩ n1).store
        jobId ch m2 ti cw tso2 true none lvl2 mn2 pr2 ⟨true, some t2⟩ n2).out
      = .ok { ok := true, ts := some t2 } := by
  have hjid : s.jobId = jobId := ThreadStore.get_jobId hget
  have h1 := cliUpdate_upsert_fresh store s jobId ch m1 ti cw tso1 lvl1 mn1 pr1 t1 n1
    hget hts hterm hprog ht1
  have hget1 : (store.set { s with status := .in_progress, updatedAt := n1 }).get jobId
      = some { s with status := .in_progress, updatedAt := n1 } :=
    ThreadStore.get_set_self hget (by simpa using hjid)
  have hget2 : ((store.set { s with status := .in_progress, updatedAt := n1 }).set
        { s with status := .in_progress, updatedAt := n1, progressMessageTs := some t1 }).get jobId
      = some { s with status := .in_progress, updatedAt := n1, progressMessageTs := some t1 } :=
    ThreadStore.get_set_self hget1 (by simpa using hjid)
  have hterm2 := ThreadStore.isTerminal_of_get_false hget2 (Or.inr rfl)
  have h2 := cliUpdate_upsert_edit
    ((store.set { s with status := .in_progress, updatedAt := n1 }).set
      { s with status := .in_progress, updatedAt := n1, progressMessageTs := some t1 })
    { s with status := .in_progress, updatedAt := n1, progressMessageTs := some t1 }
    jobId ch m2 ti cw tso2 t1 lvl2 mn2 pr2 t2 n2
    hget2 (by simpa using hts) hterm2 rfl ht2
  simp only [h1]
  simp only [h2]
  refine ⟨?_, ?_, ?_⟩
  · simp [slackCalls, Event.slackCall?]
  · have hget2b := ThreadStore.get_set_self hget2
      (t := { ({ s with status := .in_progress, updatedAt := n1, progressMessageTs := some t1 } : ThreadState) with
        status := JobStatus.in_progress, updatedAt := n2 }) (by simpa using hjid)
    have hget3 := ThreadStore.get_set_self hget2b
      (t := { ({ s with status := .in_progress, updatedAt := n1, progressMessageTs := some t1 } : ThreadState) with
        status := JobStatus.in_progress, updatedAt := n2, progressMessageTs := some t2 }) (by simpa using hjid)
    rw [ThreadStore.getProgressMessageTs_present hget3]
  · trivial

/-- Witness for upsert coalescing at a concrete started job. -/
theorem upsert_coalescing_witness :
    ((⟨[runJob]⟩ : ThreadStore).get "job-2" = some runJob ∧ runJob.threadTs ≠ "" ∧
      (⟨[runJob]⟩ : ThreadStore).isTerminal "job-2" = false ∧
      runJob.progressMessageTs = none ∧ "500.1" ≠ "" ∧ "500.2" ≠ "") ∧
    slackCalls ((cliUpdate ⟨[runJob]⟩ "job-2" "C1" "m1" "" "" "" true none none false
          ⟨true, "C1", "x", none⟩ ⟨true, some "500.1"⟩ 11).events ++
        (cliUpdate (cliUpdate ⟨[runJob]⟩ "job-2" "C1" "m1" "" "" "" true none none false
            ⟨true, "C1", "x", none⟩ ⟨true, some "500.1"⟩ 11).store
          "job-2" "C1" "m2" "" "" "" true none none false
          ⟨true, "C1", "x", none⟩ ⟨true, some "500.2"⟩ 12).events) =
      [.reply runJob.channel runJob.threadTs "m1" Level.info false,
        .editReply runJob.channel "500.1" "m2" Level.info false] ∧
    (cliUpdate (cliUpdate ⟨[runJob]⟩ "job-2" "C1" "m1" "" "" "" true none none false
          ⟨true, "C1", "x", none⟩ ⟨true, some "500.1"⟩ 11).store
        "job-2" "C1" "m2" "" "" "" true none none false
        ⟨true, "C1", "x", none⟩ ⟨true, some "500.2"⟩ 12).store.getProgressMessageTs "job-2"
      = some "500.2" := by
  have h := upsert_coalescing ⟨[runJob]⟩ runJob "job-2" "C1" "m1" "m2" "" "" "" ""
    "500.1" "500.2" none none false false ⟨true, "C1", "x", none⟩ ⟨true, "C1", "x", none⟩ 11 12
    (by decide) (by decide) (by decide) (by decide) (by decide) (by decide)
  exact ⟨⟨by decide, by decide, by decide, by decide, by decide, by decide⟩,
    by simpa using h.1, h.2.1⟩

/-- A cancelled monitor entry can no longer be found. -/
theorem cancel_find_none (ms : Monitors) (j : String) :
    (cancelWaitingMonitor ms j).find? (fun n => n.jobId == j) = none := by
  unfold cancelWaitingMonitor
  rw [List.find?_eq_none]
  intro x hx
  have := (List.mem_filter.mp hx).2
  simpa using this

/-- A cancelled watchdog never fires and never posts. -/
theorem fire_cancelled (ms : Monitors) (j : String) :
    fireWaitingMonitor (cancelWaitingMonitor ms j) j = (cancelWaitingMonitor ms j, []) := by
  unfold fireWaitingMonitor
  rw [cancel_find_none]

/-- Counterexample for claim C4: the MCP waiting tool does not cancel a
pending watchdog — after waiting runs for a job with an armed watchdog, the
timer is still armed and, when it fires, a stalled notification is posted. -/
theorem waiting_keeps_watchdog_armed :
    (mcpWaiting ⟨[runJob]⟩ (startWaitingMonitor [] "job-2" "C1" "333.444")
        "C0" "job-2" "" "" none ⟨true, some "7.7"⟩).monitors
      = [⟨"job-2", "C1", "333.444", false⟩] ∧
    (fireWaitingMonitor
        (mcpWaiting ⟨[runJob]⟩ (startWaitingMonitor [] "job-2" "C1" "333.444")
          "C0" "job-2" "" "" none ⟨true, some "7.7"⟩).monitors "job-2").2
      = [.slack (.reply "C1" "333.444" stalledText .warn false)] := by
  constructor
  · decide
  · decide

/-- Amended claim C4: a pending watchdog is cancelled by the MCP complete and
fail tools (whenever the thread handle resolves) and by the MCP update tool
on a non-terminal job (update re-arms a fresh one unless monitoring is
disabled); the MCP waiting tool does not cancel it.  A cancelled watchdog
never posts; in particular, arming a watchdog for a job and then completing
that job before the timer fires results in zero stalled notifications. -/
theorem watchdog_cancellation_amended
    (ms : Monitors) (store : ThreadStore) (monitors : Monitors)
    (defCh jobId msg tsOpt errS : String) (lvl : Option Level)
    (mo : Option Bool) (sm : Option String) (sg : Option (List String))
    (lg : Option String) (rr : ReplyResult) (now : Nat)
    (hts : ¬ mcpTargetThreadTs tsOpt (store.get jobId) = "")
    (hterm : store.isTerminal jobId = false) :
    fireWaitingMonitor (cancelWaitingMonitor ms jobId) jobId
      = (cancelWaitingMonitor ms jobId, []) ∧
    (fireWaitingMonitor
        (mcpComplete store monitors defCh jobId tsOpt sm sg mo rr now).monitors jobId).2 = [] ∧
    (fireWaitingMonitor
        (mcpFail store monitors defCh jobId tsOpt errS lg mo rr now).monitors jobId).2 = [] ∧
    (fireWaitingMonitor
        (mcpUpdate store monitors defCh jobId msg tsOpt lvl mo (some false) rr now).monitors
        jobId).2 = [] := by
  refine ⟨fire_cancelled ms jobId, ?_, ?_, ?_⟩
  · simp only [mcpComplete]
    rw [if_neg hts]
    split_ifs <;> simp [fire_cancelled]
  · simp only [mcpFail]
    rw [if_neg hts]
    split_ifs <;> simp [fire_cancelled]
  · simp only [mcpUpdate]
    rw [if_neg hts]
    simp [hterm, fire_cancelled]

/-- Witness for the amended watchdog claim: arm, then complete, then the
timer firing posts nothing. -/
theorem watchdog_cancellation_amended_witness :
    (¬ mcpTargetThreadTs "" ((⟨[runJob]⟩ : ThreadStore).get "job-2") = "" ∧
      (⟨[runJob]⟩ : ThreadStore).isTerminal "job-2" = false) ∧
    (fireWaitingMonitor
        (mcpComplete ⟨[runJob]⟩ (startWaitingMonitor [] "job-2" "C1" "333.444")
          "C0" "job-2" "" none none none ⟨true, some "8.8"⟩ 13).monitors "job-2").2 = [] := by
  refine ⟨⟨by decide, by decide⟩, ?_⟩
  exact (watchdog_cancellation_amended (startWaitingMonitor [] "job-2" "C1" "333.444")
    ⟨[runJob]⟩ (startWaitingMonitor [] "job-2" "C1" "333.444") "C0" "job-2" "m" "" "e"
    none none none none none ⟨true, some "8.8"⟩ 13 (by decide) (by decide)).2.1

/-- A cwd-derived title is never the empty string. -/
theorem cwdTitle_ne_empty (cw : String) : cwdTitle cw ≠ "" := by
  unfold cwdTitle
  cases h : ((cw.splitOn "/").filter (fun p => p != "")).getLast? with
  | none => simp
  | some p =>
    have hmem := List.mem_of_getLast?_eq_some h
    have := (List.mem_filter.mp hmem).2
    simpa using this

/-- Counterexample for claim C5: the CLI update command ignores a
caller-supplied thread handle entirely — with an empty ledger and an explicit
handle "123.456" supplied, it lazily creates a brand-new thread (posting a
fresh top-level message) and replies there, instead of replying into the
supplied thread. -/
theorem cli_ignores_explicit_thread_ts :
    slackCalls (cliUpdate ⟨[]⟩ "jx" "C0" "m" "" "" "123.456" false none none false
        ⟨true, "C0", "999.999", none⟩ ⟨true, some "7.7"⟩ 5).events
      = [.parent "C0" "Claude Code Task" none false,
        .reply "C0" "999.999" "m" Level.info false] := by
  decide

/-- Amended claim C5: the MCP tools resolve an explicit caller handle first,
then the ledger-stored handle, and raise a thread-not-found error when
neither resolves — they never create a thread lazily; the CLI commands
ignore any explicit caller handle and resolve the ledger-stored handle,
falling back to lazy creation with the title chain caller title, else
stored title, else the last segment of the cwd hint, else the fixed
fallback label. -/
theorem thread_resolution_amended
    (store store2 : ThreadStore) (monitors2 : Monitors) (s : ThreadState)
    (defCh jobId jobId2 msg tsOpt reasonOpt errS t ti cw ch t1 t2 : String)
    (sm : Option String) (sg : Option (List String)) (lg : Option String)
    (lvl : Option Level) (mo ew : Option Bool) (up : Bool) (he : Option HookEvent)
    (clvl : Option Level) (mn : Bool) (pr : PostResult) (rr : ReplyResult) (now : Nat)
    (hne : t ≠ "")
    (hempty : mcpTargetThreadTs tsOpt (store2.get jobId2) = "")
    (hget : store.get jobId = some s) (hts : s.threadTs ≠ "") :
    mcpTargetThreadTs t (store.get jobId) = t ∧
    mcpTargetThreadTs "" (some s) = s.threadTs ∧
    ((mcpUpdate store2 monitors2 defCh jobId2 msg tsOpt lvl mo ew rr now).out
        = .error "スレッドが見つかりません" ∧
      (mcpWaiting store2 monitors2 defCh jobId2 tsOpt reasonOpt mo rr).out
        = .error "スレッドが見つかりません" ∧
      (mcpComplete store2 monitors2 defCh jobId2 tsOpt sm sg mo rr now).out
        = .error "スレッドが見つかりません" ∧
      (mcpFail store2 monitors2 defCh jobId2 tsOpt errS lg mo rr now).out
        = .error "スレッドが見つかりません") ∧
    cliUpdate store jobId ch msg ti cw t1 up he clvl mn pr rr now
      = cliUpdate store jobId ch msg ti cw t2 up he clvl mn pr rr now ∧
    ensureThread store jobId ch ti cw mn pr now
      = ⟨.ok ⟨s.threadTs, s.channel, s.title, false⟩, store, []⟩ ∧
    (∀ st cwh, lazyTitle t st cwh = t) ∧
    (∀ cwh, lazyTitle "" t cwh = t) ∧
    (cw ≠ "" → lazyTitle "" "" cw = cwdTitle cw) ∧
    lazyTitle "" "" "" = "Claude Code Task" := by
  refine ⟨?_, ?_, ⟨?_, ?_, ?_, ?_⟩, rfl,
    ensureThread_existing ch ti cw mn pr now hget hts, ?_, ?_, ?_, ?_⟩
  · simp [mcpTargetThreadTs, jsOr, hne]
  · simp [mcpTargetThreadTs, jsOr]
  · simp only [mcpUpdate]
    rw [if_pos hempty]
  · simp only [mcpWaiting]
    rw [if_pos hempty]
  · simp only [mcpComplete]
    rw [if_pos hempty]
  · simp only [mcpFail]
    rw [if_pos hempty]
  · intro st cwh
    simp [lazyTitle, jsOr, hne]
  · intro cwh
    simp [lazyTitle, jsOr, hne]
  · intro hcw
    simp [lazyTitle, jsOr, hcw, cwdTitle_ne_empty cw]
  · simp [lazyTitle, jsOr, cwdTitle]

/-- Witness for the amended thread-resolution claim at concrete inputs. -/
theorem thread_resolution_amended_witness :
    ("123.456" ≠ "" ∧
      mcpTargetThreadTs "" ((⟨[]⟩ : ThreadStore).get "jx") = "" ∧
      (⟨[runJob]⟩ : ThreadStore).get "job-2" = some runJob ∧ runJob.threadTs ≠ "") ∧
    mcpTargetThreadTs "123.456" ((⟨[runJob]⟩ : ThreadStore).get "job-2") = "123.456" ∧
    (mcpUpdate ⟨[]⟩ [] "C0" "jx" "m" "" none none none ⟨true, some "7.7"⟩ 5).out
      = .error "スレッドが見つかりません" ∧
    (∀ cwh, lazyTitle "" "123.456" cwh = "123.456") := by
  have h := thread_resolution_amended ⟨[runJob]⟩ ⟨[]⟩ [] runJob
    "C0" "job-2" "jx" "m" "" "" "e" "123.456" "" "a/b" "C1" "x1" "x2"
    none none none none none none false none none false
    ⟨true, "C1", "9.9", none⟩ ⟨true, some "7.7"⟩ 5
    (by decide) (by decide) (by decide) (by decide)
  exact ⟨⟨by decide, by decide, by decide, by decide⟩, h.1, h.2.2.1.1, h.2.2.2.2.2.2.1⟩

/-- Counterexample for claim C6: the update operation writes status
in_progress to the ledger before the reply post, and keeps that write even
when the platform call fails — here the reply post returns failure, yet the
job's status has changed to in_progress and updatedAt was bumped, and the
event trace shows the ledger write preceding the Slack call. -/
theorem update_writes_status_before_post :
    ((mcpUpdate ⟨[runJob]⟩ [] "C0" "job-2" "m" "" none none none ⟨false, none⟩ 7).store.get
        "job-2").map (fun s => s.status) = some JobStatus.in_progress ∧
    ((mcpUpdate ⟨[runJob]⟩ [] "C0" "job-2" "m" "" none none none ⟨false, none⟩ 7).store.get
        "job-2").map (fun s => s.updatedAt) = some 7 ∧
    (mcpUpdate ⟨[runJob]⟩ [] "C0" "job-2" "m" "" none none none ⟨false, none⟩ 7).events
      = [.storeSetStatus "job-2" JobStatus.in_progress,
        .slack (.reply "C1" "333.444" "m" Level.info false)] := by
  refine ⟨by decide, by decide, by decide⟩

/-- Amended claim C6: thread-creating writes and terminal status writes are
made only after the external call resolved successfully (a failed post leaves
the ledger untouched in complete/fail and in lazy creation, and the
progress-message handle is written only after a successful reply); the update
operation, however, writes status in_progress before the reply call and
keeps it regardless of the call's outcome. -/
theorem ledger_write_ordering_amended
    (store : ThreadStore) (monitors : Monitors) (s : ThreadState)
    (defCh jobId msg tsOpt errS ch ti cw tso cmsg : String)
    (sm : Option String) (sg : Option (List String)) (lg : Option String)
    (lvl clvl : Option Level) (mo ew : Option Bool) (up : Bool)
    (he : Option HookEvent) (mn : Bool) (pr : PostResult) (rr : ReplyResult)
    (now : Nat)
    (hfail : rr.ok = false) (hpfail : pr.ok = false)
    (hget : store.get jobId = some s)
    (hts : ¬ mcpTargetThreadTs tsOpt (store.get jobId) = "")
    (hts2 : s.threadTs ≠ "")
    (hterm : store.isTerminal jobId = false) :
    (mcpComplete store monitors defCh jobId tsOpt sm sg mo rr now).store = store ∧
    (mcpFail store monitors defCh jobId tsOpt errS lg mo rr now).store = store ∧
    (ensureThread store jobId ch ti cw mn pr now).store = store ∧
    ((mcpUpdate store monitors defCh jobId msg tsOpt lvl mo ew rr now).store.get
        jobId).map (fun x => x.status) = some JobStatus.in_progress ∧
    (cliUpdate store jobId ch cmsg ti cw tso up he clvl mn pr rr now).events.countP
        Event.isProgressTsWrite = 0 := by
  refine ⟨?_, ?_, ?_, ?_, ?_⟩
  · simp only [mcpComplete]
    rw [if_neg hts]
    split_ifs with h1 h2 <;> simp_all [postComplete]
  · simp only [mcpFail]
    rw [if_neg hts]
    split_ifs with h1 h2 <;> simp_all [postFail]
  · unfold ensureThread
    cases hg : store.get jobId with
    | none => simp [postParentMessage, hpfail]
    | some s2 =>
      by_cases h2 : s2.threadTs ≠ "" <;> simp [h2, postParentMessage, hpfail]
  · simp only [mcpUpdate]
    rw [if_neg hts]
    simp only [hget, Option.isSome_some, hterm, Bool.and_false, Bool.false_eq_true,
      if_false, postThreadReply]
    have hget1 := ThreadStore.get_set_self hget
      (t := { s with status := JobStatus.in_progress, updatedAt := now })
      (by simpa using ThreadStore.get_jobId hget)
    simp [ThreadStore.updateStatus_present JobStatus.in_progress now hget, hget1]
  · unfold cliUpdate
    rw [ensureThread_existing ch ti cw mn pr now hget hts2]
    have hget1 := ThreadStore.get_set_self hget
      (t := { s with status := JobStatus.in_progress, updatedAt := now })
      (by simpa using ThreadStore.get_jobId hget)
    simp only [hterm, Bool.false_eq_true, if_false, upsertThreadReply,
      ThreadStore.updateStatus_present JobStatus.in_progress now hget,
      ThreadStore.getProgressMessageTs_present hget1]
    by_cases hu : (up || (he == some HookEvent.postToolUse)) = true <;>
      cases hval : s.progressMessageTs <;>
        simp [hu, hval, hfail, List.countP, List.countP.go, Event.isProgressTsWrite]

/-- Witness for the amended write-ordering claim at a concrete started job
with failing platform calls. -/
theorem ledger_write_ordering_amended_witness :
    ((⟨false, none⟩ : ReplyResult).ok = false ∧
      (⟨false, "", "", none⟩ : PostResult).ok = false ∧
      (⟨[runJob]⟩ : ThreadStore).get "job-2" = some runJob ∧
      ¬ mcpTargetThreadTs "" ((⟨[runJob]⟩ : ThreadStore).get "job-2") = "" ∧
      runJob.threadTs ≠ "" ∧ (⟨[runJob]⟩ : ThreadStore).isTerminal "job-2" = false) ∧
    (mcpComplete ⟨[runJob]⟩ [] "C0" "job-2" "" none none none ⟨false, none⟩ 7).store
      = ⟨[runJob]⟩ ∧
    ((mcpUpdate ⟨[runJob]⟩ [] "C0" "job-2" "m" "" none none none ⟨false, none⟩ 7).store.get
        "job-2").map (fun x => x.status) = some JobStatus.in_progress := by
  have h := ledger_write_ordering_amended ⟨[runJob]⟩ [] runJob
    "C0" "job-2" "m" "" "e" "C1" "" "" "" "cm"
    none none none none none none none false none false
    ⟨false, "", "", none⟩ ⟨false, none⟩ 7
    (by decide) (by decide) (by decide) (by decide) (by decide) (by decide)
  exact ⟨⟨by decide, by decide, by decide, by decide, by decide, by decide⟩,
    h.1, h.2.2.2.1⟩

/-- Counterexample for claim C7: the CLI complete command does not request a
mention by default — with no mention option supplied the resolved flag is
false and the completion reply is posted without a mention, while the claim
asserts complete defaults to requesting one. -/
theorem cli_complete_mention_default_false :
    cliMention .complete none none = false ∧
    slackCalls (cliComplete ⟨[runJob]⟩ "job-2" "C1" "" "" none none
        (cliMention .complete none none) ⟨true, "C1", "9.9", none⟩
        ⟨true, some "7.7"⟩ 5).events
      = [.completeMsg "C1" "333.444" "Build" none none false] := by
  refine ⟨rfl, by decide⟩

/-- Amended claim C7: the MCP tools default to requesting a mention for
start, waiting, complete and fail and to not requesting one for update; the
CLI defaults to requesting a mention for start and for update outside a
PostToolUse hook, and to not requesting one for update under PostToolUse and
for waiting, complete and fail. -/
theorem mention_defaults_amended :
    mcpMention .start none = true ∧
    mcpMention .update none = false ∧
    mcpMention .waiting none = true ∧
    mcpMention .complete none = true ∧
    mcpMention .fail none = true ∧
    cliMention .start none none = true ∧
    (∀ he : Option HookEvent, cliMention .update he none = (he != some .postToolUse)) ∧
    (∀ he : Option HookEvent, cliMention .waiting he none = false) ∧
    (∀ he : Option HookEvent, cliMention .complete he none = false) ∧
    (∀ he : Option HookEvent, cliMention .fail he none = false) := by
  refine ⟨rfl, rfl, rfl, rfl, rfl, rfl, ?_, ?_, ?_, ?_⟩ <;>
    exact fun he => by cases he <;> simp [cliMention]

/-- Counterexample for claim C8: a hard error is raised not only for the
first anchor post under start — a CLI update for a job with no thread, whose
lazy anchor-message post fails, also raises a hard error instead of
returning a structured failure result. -/
theorem cli_update_lazy_create_hard_error :
    (cliUpdate ⟨[]⟩ "jx" "C0" "m" "" "" "" false none none false
        ⟨false, "", "", none⟩ ⟨true, some "7.7"⟩ 5).out
      = .error "Failed to create Slack thread" := by
  decide

/-- Amended claim C8: when the external platform call fails, the reply-class
operations return a structured ok:false result rather than raising, provided
a thread already exists; a hard error is raised exactly when an
anchor-message post fails — under start, and equally during lazy thread
creation by the CLI update, waiting, complete and fail commands. -/
theorem upstream_failure_amended
    (store store2 : ThreadStore) (monitors : Monitors) (s : ThreadState)
    (defCh jobId jobId2 title msg tsOpt reasonOpt errS ch ti cw tso cmsg : String)
    (creason chm cnt : String)
    (chOpt : Option String) (meta : Option MetaData)
    (sm : Option String) (sg : Option (List String)) (lg : Option String)
    (lvl clvl : Option Level) (mo ew : Option Bool) (up : Bool) (he : Option HookEvent)
    (mn : Bool) (pr : PostResult) (rr : ReplyResult) (now : Nat)
    (hfail : rr.ok = false) (hpfail : pr.ok = false)
    (hget : store.get jobId = some s) (hts2 : s.threadTs ≠ "")
    (hts : ¬ mcpTargetThreadTs tsOpt (store.get jobId) = "")
    (hterm : store.isTerminal jobId = false)
    (hget2 : store2.get jobId2 = none) :
    (mcpUpdate store monitors defCh jobId msg tsOpt lvl mo ew rr now).out
      = .ok { ok := false } ∧
    (mcpWaiting store monitors defCh jobId tsOpt reasonOpt mo rr).out
      = .ok { ok := false } ∧
    (mcpComplete store monitors defCh jobId tsOpt sm sg mo rr now).out
      = .ok { ok := false } ∧
    (mcpFail store monitors defCh jobId tsOpt errS lg mo rr now).out
      = .ok { ok := false } ∧
    (cliUpdate store jobId ch cmsg ti cw tso up he clvl mn pr rr now).out
      = .ok { ok := false, ts := rr.ts } ∧
    (cliWaiting store jobId ch ti cw creason chm cnt mn pr rr now).out
      = .ok { ok := false } ∧
    (cliComplete store jobId ch ti cw sm sg mn pr rr now).out
      = .ok { ok := false } ∧
    (cliFail store jobId ch ti cw errS lg mn pr rr now).out
      = .ok { ok := false } ∧
    (mcpStart store2 defCh jobId2 title chOpt meta mo pr now).out
      = .error "Slack投稿に失敗しました" ∧
    (cliStart store2 jobId2 ch ti false meta mn pr now).out
      = .error "Failed to post to Slack" ∧
    (ensureThread store2 jobId2 ch ti cw mn pr now).out
      = .error "Failed to create Slack thread" := by
  have hE := ensureThread_existing ch ti cw mn pr now hget hts2
  obtain ⟨rok, rts⟩ := rr
  simp only at hfail
  subst hfail
  refine ⟨?_, ?_, ?_, ?_, ?_, ?_, ?_, ?_, ?_, ?_, ?_⟩
  · simp only [mcpUpdate]
    rw [if_neg hts]
    simp [hget, hterm, postThreadReply]
  · simp only [mcpWaiting]
    rw [if_neg hts]
    simp [hget, hterm, postWaiting]
  · simp only [mcpComplete]
    rw [if_neg hts]
    simp [hget, hterm, postComplete]
  · simp only [mcpFail]
    rw [if_neg hts]
    simp [hget, hterm, postFail]
  · unfold cliUpdate
    rw [hE]
    simp only [hterm, Bool.false_eq_true, if_false, upsertThreadReply]
    cases hex : (if (up || (he == some HookEvent.postToolUse)) = true then
        (store.updateStatus jobId JobStatus.in_progress now).2.getProgressMessageTs jobId
      else none) <;> simp [hex]
  · unfold cliWaiting
    rw [hE]
    simp only [hterm, Bool.false_eq_true, if_false, postWaitingUpsert]
    cases hex : store.getProgressMessageTs jobId <;> simp [hex]
  · unfold cliComplete
    rw [hE]
    simp [hterm, postComplete]
  · unfold cliFail
    rw [hE]
    simp [hterm, postFail]
  · unfold mcpStart
    rw [hget2]
    simp [postParentMessage, hpfail]
  · unfold cliStart
    rw [hget2]
    simp [postParentMessage, hpfail]
  · unfold ensureThread
    rw [hget2]
    simp [postParentMessage, hpfail]

/-- Witness for the amended upstream-failure claim at concrete stores with
failing platform calls. -/
theorem upstream_failure_amended_witness :
    ((⟨false, none⟩ : ReplyResult).ok = false ∧
      (⟨false, "", "", none⟩ : PostResult).ok = false ∧
      (⟨[runJob]⟩ : ThreadStore).get "job-2" = some runJob ∧
      runJob.threadTs ≠ "" ∧
      ¬ mcpTargetThreadTs "" ((⟨[runJob]⟩ : ThreadStore).get "job-2") = "" ∧
      (⟨[runJob]⟩ : ThreadStore).isTerminal "job-2" = false ∧
      (⟨[]⟩ : ThreadStore).get "jx" = none) ∧
    (mcpUpdate ⟨[runJob]⟩ [] "C0" "job-2" "m" "" none none none ⟨false, none⟩ 7).out
      = .ok { ok := false } ∧
    (mcpStart ⟨[]⟩ "C0" "jx" "T" none none none ⟨false, "", "", none⟩ 7).out
      = .error "Slack投稿に失敗しました" := by
  have h := upstream_failure_amended ⟨[runJob]⟩ ⟨[]⟩ [] runJob
    "C0" "job-2" "jx" "T" "m" "" "" "e" "C1" "" "" "" "cm" "" "" ""
    none none none none none none none none none false none false
    ⟨false, "", "", none⟩ ⟨false, none⟩ 7
    (by decide) (by decide) (by decide) (by decide) (by decide) (by decide) (by decide)
  exact ⟨⟨by decide, by decide, by decide, by decide, by decide, by decide, by decide⟩,
    h.1, h.2.2.2.2.2.2.2.2.1⟩

end SlackThread
